import Mathlib

/-!
Verification of the bird-sighting notifier pipeline (src/bird_notifier.py).

The development shallowly embeds the script: sighting records are structures
of optional fields (mirroring dictionary access with defaults), the
environment-derived configuration is a structure of optional strings,
network effects (the HTTP fetch and the SMTP session) are oracles passed in
as values of an exception type, and every function of the script becomes a
total Lean function over these.  Observable side effects of the sender are
recorded in an explicit log.
-/

namespace BirdNotifier

/-! ### Python string primitives used by the script -/

/-- Python whitespace characters removed by str.strip with no argument
(ASCII subset: space, tab, newline, carriage return, vertical tab, form feed). -/
def pyIsSpace (c : Char) : Bool :=
  c = ' ' || c = '\t' || c = '\n' || c = '\r' || c = '\x0b' || c = '\x0c'

/-- Python str.strip: drop leading and trailing whitespace. -/
def pyStrip (s : String) : String :=
  String.mk (((s.toList.dropWhile pyIsSpace).reverse.dropWhile pyIsSpace).reverse)

/-- Accumulating pass of pySplitComma over the characters. -/
def pySplitCommaAux : List Char → List Char → List String
  | [], acc => [String.mk acc.reverse]
  | c :: rest, acc =>
    if c = ',' then String.mk acc.reverse :: pySplitCommaAux rest []
    else pySplitCommaAux rest (c :: acc)

/-- Python str.split on a comma separator: splits at every comma and keeps
empty parts, and the empty string yields one empty part. -/
def pySplitComma (s : String) : List String :=
  pySplitCommaAux s.toList []

/-- Python truthiness of an optional string, as tested by the
`all([...])` guard of the sender: None and the empty string are falsy. -/
def pyTruthyOpt : Option String → Bool
  | none => false
  | some s => !s.isEmpty

/-- Python str.replace applied to the single-character pattern "Z" with
replacement "+00:00": every occurrence is replaced (line 145 of the source). -/
def pyReplaceZ (s : String) : String :=
  String.join (s.toList.map (fun c => if c = 'Z' then "+00:00" else String.singleton c))

/-- Transformation named by the specification sentence: replace only a
trailing "Z" by "+00:00".  This is the claim-side reading, kept separate so
it can be compared with pyReplaceZ, the operation the code performs. -/
def replaceTrailingZ (s : String) : String :=
  match s.toList.getLast? with
  | some 'Z' => String.mk s.toList.dropLast ++ "+00:00"
  | _ => s

/-! ### Model of datetime.fromisoformat and strftime

The script parses the upstream timestamp with datetime.fromisoformat and
reformats it with strftime.  The parser below models fromisoformat for the
format emitted by datetime.isoformat, which is the grammar documented for
CPython 3.10 and accepted by every later version:
YYYY-MM-DD, then optionally one arbitrary separator character and
HH[:MM[:SS[.fff[fff]]]][(+ or -)HH[:MM[:SS[.fff[fff]]]]].
The separator character at index 10 is skipped without being inspected,
the fractional part must have exactly 3 or 6 digits, a fraction may follow
any time component, and the timezone designator starts at the first sign
character of the time part.  Field ranges are validated as by the datetime
and timezone constructors.  Newer interpreters additionally accept ISO
forms never emitted by isoformat (basic format, week dates); those are not
produced by the upstream API and are outside this model. -/

/-- Parse exactly two ASCII digits from the front of a character list. -/
def parse2 : List Char → Option (Nat × List Char)
  | c1 :: c2 :: rest =>
    if c1.isDigit && c2.isDigit then
      some ((c1.toNat - 48) * 10 + (c2.toNat - 48), rest)
    else none
  | _ => none

/-- Parse exactly four ASCII digits from the front of a character list. -/
def parse4 (cs : List Char) : Option (Nat × List Char) := do
  let (hi, r1) ← parse2 cs
  let (lo, r2) ← parse2 r1
  pure (hi * 100 + lo, r2)

/-- Numeric value of a list of ASCII digits; none when a character is not a digit. -/
def digitsToNat (cs : List Char) : Option Nat :=
  if cs.all Char.isDigit then
    some (cs.foldl (fun a c => a * 10 + (c.toNat - 48)) 0)
  else none

/-- Fractional-second part after the dot: exactly 3 or 6 digits, scaled to
microseconds. -/
def parseMicro (cs : List Char) : Option Nat :=
  if cs.length = 3 then (digitsToNat cs).map (fun n => n * 1000)
  else if cs.length = 6 then digitsToNat cs
  else none

/-- Date part of the isoformat grammar: exactly YYYY-MM-DD, fully consumed. -/
def parseDate (cs : List Char) : Option (Nat × Nat × Nat) := do
  let (y, r1) ← parse4 cs
  match r1 with
  | '-' :: r2 => do
    let (m, r3) ← parse2 r2
    match r3 with
    | '-' :: r4 => do
      let (d, r5) ← parse2 r4
      match r5 with
      | [] => pure (y, m, d)
      | _ => none
    | _ => none
  | _ => none

/-- Time components HH[:MM[:SS]] with an optional fractional part after any
component, consuming the whole segment.  Returns hour, minute, second and
microseconds. -/
def parseHMSF (cs : List Char) : Option (Nat × Nat × Nat × Nat) := do
  let (h, r1) ← parse2 cs
  match r1 with
  | [] => pure (h, 0, 0, 0)
  | '.' :: fr => do
    let us ← parseMicro fr
    pure (h, 0, 0, us)
  | ':' :: r2 => do
    let (m, r3) ← parse2 r2
    match r3 with
    | [] => pure (h, m, 0, 0)
    | '.' :: fr => do
      let us ← parseMicro fr
      pure (h, m, 0, us)
    | ':' :: r4 => do
      let (s, r5) ← parse2 r4
      match r5 with
      | [] => pure (h, m, s, 0)
      | '.' :: fr => do
        let us ← parseMicro fr
        pure (h, m, s, us)
      | _ => none
    | _ => none
  | _ => none

/-- Time part of the grammar: the timezone designator starts at the first
sign character; both segments use the HH[:MM[:SS[.frac]]] grammar.  The
returned offset is in signed microseconds. -/
def parseTimeTz (cs : List Char) : Option ((Nat × Nat × Nat × Nat) × Option Int) :=
  match List.findIdx? (fun c => c = '+' || c = '-') cs with
  | none => (parseHMSF cs).map (fun t => (t, none))
  | some i => do
    let t ← parseHMSF (cs.take i)
    let (th, tm, ts, tus) ← parseHMSF (cs.drop (i + 1))
    let mag : Int := Int.ofNat ((th * 3600 + tm * 60 + ts) * 1000000 + tus)
    let off : Int := if cs.get? i = some '-' then -mag else mag
    pure (t, some off)

/-- Result of a successful fromisoformat call: the fields of the datetime
value, with the utcoffset in microseconds when a timezone was given. -/
structure PyDateTime where
  year : Nat
  month : Nat
  day : Nat
  hour : Nat
  minute : Nat
  second : Nat
  microsecond : Nat
  utcoffsetUs : Option Int
deriving DecidableEq

/-- Leap-year rule of the Gregorian calendar, as used by datetime. -/
def isLeapYear (y : Nat) : Bool :=
  y % 4 = 0 && (y % 100 != 0 || y % 400 = 0)

/-- Number of days of a month, as validated by the datetime constructor. -/
def daysInMonth (y m : Nat) : Nat :=
  if m = 2 then (if isLeapYear y then 29 else 28)
  else if m = 4 || m = 6 || m = 9 || m = 11 then 30
  else 31

/-- Range checks of the datetime and timezone constructors: year 1..9999,
month 1..12, day within the month, hour to 23, minute and second to 59,
microsecond to 999999, and a timezone offset strictly below 24 hours. -/
def validDateTime (dt : PyDateTime) : Bool :=
  decide (1 ≤ dt.year) && decide (dt.year ≤ 9999) &&
  decide (1 ≤ dt.month) && decide (dt.month ≤ 12) &&
  decide (1 ≤ dt.day) && decide (dt.day ≤ daysInMonth dt.year dt.month) &&
  decide (dt.hour ≤ 23) && decide (dt.minute ≤ 59) && decide (dt.second ≤ 59) &&
  decide (dt.microsecond ≤ 999999) &&
  (match dt.utcoffsetUs with
   | none => true
   | some off => decide (off.natAbs < 86400000000))

/-- Construct a datetime value, applying the constructor range checks. -/
def mkChecked (y m d h mi s us : Nat) (tz : Option Int) : Option PyDateTime :=
  let dt : PyDateTime := ⟨y, m, d, h, mi, s, us, tz⟩
  if validDateTime dt then some dt else none

/-- Model of datetime.fromisoformat on the isoformat grammar: the first ten
characters are the date, the character at index 10 (when present) is the
separator and is not inspected, and the rest is the time part.  A string of
length exactly ten is a bare date at midnight. -/
def fromisoformat (s : String) : Option PyDateTime :=
  let cs := s.toList
  match parseDate (cs.take 10) with
  | none => none
  | some (y, m, d) =>
    if cs.length = 10 then mkChecked y m d 0 0 0 0 none
    else match parseTimeTz (cs.drop 11) with
      | none => none
      | some ((h, mi, se, us), tz) => mkChecked y m d h mi se us tz

/-- Two-digit zero padding, as produced by the strftime field directives. -/
def pad2 (n : Nat) : String :=
  if n < 10 then "0" ++ toString n else toString n

/-- Model of strftime with format "%Y-%m-%d %H:%M".  On glibc the year
directive does not zero-pad, matching toString for every year. -/
def strftimeYMDHM (dt : PyDateTime) : String :=
  toString dt.year ++ "-" ++ pad2 dt.month ++ "-" ++ pad2 dt.day ++ " " ++
    pad2 dt.hour ++ ":" ++ pad2 dt.minute

/-- Date display of one sighting block, lines 143 to 148 of the source:
replace every "Z" by "+00:00", parse with fromisoformat inside a bare
try block, reformat on success, and fall back to the raw string on any
parse failure. -/
def formatObsDate (obs_date : String) : String :=
  match fromisoformat (pyReplaceZ obs_date) with
  | some dt => strftimeYMDHM dt
  | none => obs_date

/-! ### Data model -/

/-- One sighting record of the upstream JSON response.  The script accesses
it only through dictionary lookups with defaults, so every field is
optional.  The latitude and longitude are used only inside a formatted
string, so they are carried as their rendered decimal text; the upstream
default for a missing coordinate renders as "0". -/
structure Sighting where
  comName : Option String
  sciName : Option String
  locName : Option String
  obsDt : Option String
  howMany : Option Int
  lat : Option String
  lng : Option String
deriving DecidableEq

/-- Environment-derived configuration visible to the sender and the
formatter.  The three credential values are read with os.getenv and can be
absent; the server and port have defaults applied at read time. -/
structure Config where
  smtp_server : String
  smtp_port : Nat
  sender_email : Option String
  sender_password : Option String
  receiver_emails : Option String
  radius_km : Nat
deriving DecidableEq

/-! ### Notification formatter (lines 121 to 191) -/

/-- Part of one sighting block before the formatted date: the opening div,
the species heading, the scientific name and the location line. -/
def blockBefore (species_name scientific_name location : String) : String :=
  "\n                <div style=\"background: #f9f9f9; border-left: 4px solid #4CAF50; padding: 15px; margin: 15px 0; border-radius: 5px;\">\n                    <h3 style=\"color: #333; margin: 0 0 10px 0;\">" ++
  species_name ++
  "</h3>\n                    <p style=\"color: #666; font-style: italic; margin: 5px 0;\">" ++
  scientific_name ++
  "</p>\n                    <p style=\"margin: 5px 0;\"><strong>üìç Location:</strong> " ++
  location ++
  "</p>\n                    <p style=\"margin: 5px 0;\"><strong>üïê When:</strong> "

/-- Part of one sighting block after the formatted date: the count line
with its plural, the map link built from the coordinates, and the eBird
link. -/
def blockAfter (how_many : Int) (maps_url : String) : String :=
  "</p>\n                    <p style=\"margin: 5px 0;\"><strong>üî¢ Count:</strong> " ++
  toString how_many ++ " individual" ++ (if how_many ≠ 1 then "s" else "") ++
  "</p>\n                    <p style=\"margin: 10px 0;\">\n                        <a href=\"" ++
  maps_url ++
  "\" style=\"background: #4CAF50; color: white; padding: 8px 16px; text-decoration: none; border-radius: 5px; display: inline-block;\">\n                            üìç View on Map\n                        </a>\n                        <a href=\"https://ebird.org/map\" style=\"background: #2196F3; color: white; padding: 8px 16px; text-decoration: none; border-radius: 5px; display: inline-block; margin-left: 10px;\">\n                            üê¶ View on eBird\n                        </a>\n                    </p>\n                </div>\n            "

/-- One rendered sighting block, lines 134 to 169: defaults applied to the
record fields, the date display of formatObsDate in the middle, and the map
link interpolating the coordinates. -/
def renderSighting (s : Sighting) : String :=
  let species_name := s.comName.getD "Unknown species"
  let scientific_name := s.sciName.getD ""
  let location := s.locName.getD "Unknown location"
  let obs_date := s.obsDt.getD ""
  let how_many := s.howMany.getD 1
  let lat := s.lat.getD "0"
  let lng := s.lng.getD "0"
  let maps_url := "https://www.google.com/maps?q=" ++ lat ++ "," ++ lng
  blockBefore species_name scientific_name location ++ formatObsDate obs_date ++
    blockAfter how_many maps_url

/-- Document head of the email body, lines 124 to 132: heading, total
count with its plural, search radius and location label. -/
def emailHeader (radius_km n : Nat) : String :=
  "\n        <html>\n        <body style=\"font-family: Arial, sans-serif;\">\n            <h2 style=\"color: #4CAF50;\">üê¶ Rare Bird Sightings Alert!</h2>\n            <p><strong>" ++
  toString n ++ " notable bird" ++ (if n > 1 then "s" else "") ++
  " spotted within " ++ toString radius_km ++
  "km of your location!</strong></p>\n            <p style=\"color: #666;\"><em>M√§rsta, Stockholm area</em></p>\n            \n            <div style=\"margin: 20px 0;\">\n        "

/-- Static tail of the email body, lines 171 to 190: closing div, the
birding-tips box and the signature. -/
def emailFooter : String :=
  "\n            </div>\n            \n            <div style=\"background: #e8f5e9; padding: 15px; border-radius: 5px; margin-top: 20px;\">\n                <h3 style=\"color: #2e7d32;\">üîç Birding Tips:</h3>\n                <ul style=\"color: #333;\">\n                    <li>Bring binoculars and a field guide</li>\n                    <li>Visit early morning (5-9 AM) or late afternoon (4-7 PM)</li>\n                    <li>Be quiet and patient</li>\n                    <li>Check weather conditions before going</li>\n                    <li>Respect private property and wildlife</li>\n                </ul>\n            </div>\n            \n            <p style=\"margin-top: 20px; color: #666; font-size: 0.9em;\">\n                <em>Happy birding! üê¶ Data from eBird</em>\n            </p>\n        </body>\n        </html>\n        "

/-- Rendered sighting blocks of the email body: the loop of line 134 runs
over the first ten sightings in input order. -/
def renderedBlocks (sightings : List Sighting) : List String :=
  (sightings.take 10).map renderSighting

/-- Whole HTML email body, lines 121 to 191: header, the concatenated
rendered blocks, and the static footer. -/
def format_email_body (radius_km : Nat) (sightings : List Sighting) : String :=
  emailHeader radius_km sightings.length ++ String.join (renderedBlocks sightings) ++
    emailFooter

/-! ### Notification sender (lines 84 to 119) -/

/-- Outcomes of the five effectful SMTP calls of the try block of lines
111 to 116: constructing the connection, the STARTTLS upgrade, login,
sending the message, and quitting.  An error value stands for that call
raising an exception. -/
structure SmtpOracle where
  connect : Except String Unit
  starttls : Except String Unit
  login : Except String Unit
  send_message : Except String Unit
  quit : Except String Unit

/-- Sequencing of the first four SMTP calls, up to and including sending
the message. -/
def trySendMsg (o : SmtpOracle) : Except String Unit := do
  o.connect
  o.starttls
  o.login
  o.send_message

/-- Sequencing of the whole try block, quit included. -/
def trySend (o : SmtpOracle) : Except String Unit := do
  trySendMsg o
  o.quit

/-- Boolean success test for an outcome. -/
def exceptOk (e : Except String Unit) : Bool :=
  match e with
  | Except.ok _ => true
  | Except.error _ => false

/-- Recipient list computed at line 100: split the configured string on
commas and strip each part. -/
def parseReceivers (receiver_emails : String) : List String :=
  (pySplitComma receiver_emails).map pyStrip

/-- Observable outcome of one call of the sender: whether the SMTP
connection constructor was reached, whether the message send completed,
the error caught by the except arm when one of the calls raised, and the
computed recipient list. -/
structure SendLog where
  attemptedConnection : Bool
  emailSent : Bool
  caughtError : Option String
  recipients : List String
deriving DecidableEq

/-- Log of a call that returned at one of the two early guards: no
connection, nothing sent, no recipients computed. -/
def noSendLog : SendLog :=
  ⟨false, false, none, []⟩

/-- Model of send_email_notification, lines 84 to 119.  The first guard
(line 92) returns when any of the sender address, sender password or
recipient string is falsy; the second guard (line 96) returns on an empty
sighting list.  Past the guards the recipient list and the message are
built, and the try block runs the five SMTP calls: any raised error is
caught by the except arm (line 118) and recorded, never propagated. -/
def send_email_notification (cfg : Config) (o : SmtpOracle) (sightings : List Sighting) :
    SendLog :=
  if pyTruthyOpt cfg.sender_email && pyTruthyOpt cfg.sender_password &&
      pyTruthyOpt cfg.receiver_emails then
    match sightings with
    | [] => noSendLog
    | _ :: _ =>
      let receiver_list := parseReceivers (cfg.receiver_emails.getD "")
      match trySend o with
      | Except.ok _ => ⟨true, true, none, receiver_list⟩
      | Except.error e => ⟨true, exceptOk (trySendMsg o), some e, receiver_list⟩
  else noSendLog

/-! ### Fetch, filter and run (lines 30 to 82 and 193 to 229) -/

/-- Model of get_notable_sightings, lines 30 to 58: the HTTP request and
JSON decode are an oracle; any raised transport or HTTP error is caught at
line 56 and turned into the empty list. -/
def get_notable_sightings (fetch : Except String (List Sighting)) : List Sighting :=
  match fetch with
  | Except.ok sightings => sightings
  | Except.error _ => []

/-- Model of filter_new_sightings, lines 76 to 82: the placeholder returns
its input unchanged. -/
def filter_new_sightings (sightings : List Sighting) : List Sighting :=
  sightings

/-- Result dictionary returned by run. -/
structure RunResult where
  alert : Bool
  sightings_count : Nat
  sightings : List Sighting
deriving DecidableEq

/-- Model of run, lines 193 to 229: fetch, return a no-alert result on an
empty list, filter, send on a nonempty filtered list and return the alert
result, otherwise return a no-alert result.  The second component records
whether send_email_notification was invoked and, when it was, its log. -/
def run (cfg : Config) (fetch : Except String (List Sighting)) (o : SmtpOracle) :
    RunResult × Option SendLog :=
  match get_notable_sightings fetch with
  | [] => (⟨false, 0, []⟩, none)
  | x :: rest =>
    match filter_new_sightings (x :: rest) with
    | [] => (⟨false, 0, []⟩, none)
    | y :: rest2 =>
      let log := send_email_notification cfg o (y :: rest2)
      (⟨true, (y :: rest2).length, y :: rest2⟩, some log)

/-! ### Concrete inputs shared by the closed instances -/

/-- Sighting with every optional field absent. -/
def sightingA : Sighting :=
  ⟨none, none, none, none, none, none, none⟩

/-- Sighting with every field present and a well-formed timestamp. -/
def sightingB : Sighting :=
  ⟨some "Smew", some "Mergellus albellus", some "Lake shore", some "2024-01-02 03:04:05",
    some 2, some "59.6", some "17.8"⟩

/-- Oracle where every SMTP call succeeds. -/
def oracleOk : SmtpOracle :=
  ⟨Except.ok (), Except.ok (), Except.ok (), Except.ok (), Except.ok ()⟩

/-- Configuration with no credential configured. -/
def cfgNoCreds : Config :=
  ⟨"smtp.gmail.com", 587, none, none, none, 25⟩

/-- Configuration with every credential configured. -/
def cfgFull : Config :=
  ⟨"smtp.gmail.com", 587, some "sender@x.com", some "pw", some "a@x.com, b@y.com", 25⟩

/-! ### Claims -/

/-- C1: when the fetch yields zero sightings, run returns alert false,
count zero and the empty sighting list, and send_email_notification is
never invoked. -/
theorem run_empty_fetch (cfg : Config) (o : SmtpOracle) :
    (run cfg (Except.ok []) o).1.alert = false ∧
    (run cfg (Except.ok []) o).1.sightings_count = 0 ∧
    (run cfg (Except.ok []) o).1.sightings = [] ∧
    (run cfg (Except.ok []) o).2 = none :=
  ⟨rfl, rfl, rfl, rfl⟩

/-- C2: when the fetch yields a nonempty list and any of the sender
address, sender password or recipient list is absent, run still returns
the alert result with the full count, and the sender returns at its
credential guard without reaching the SMTP connection. -/
theorem run_missing_credentials (cfg : Config) (o : SmtpOracle) (x : Sighting)
    (xs : List Sighting)
    (h : cfg.sender_email = none ∨ cfg.sender_password = none ∨ cfg.receiver_emails = none) :
    (run cfg (Except.ok (x :: xs)) o).1.alert = true ∧
    (run cfg (Except.ok (x :: xs)) o).1.sightings_count = (x :: xs).length ∧
    ∃ log, (run cfg (Except.ok (x :: xs)) o).2 = some log ∧
      log.attemptedConnection = false := by
  refine ⟨rfl, rfl, send_email_notification cfg o (x :: xs), rfl, ?_⟩
  have hguard : (pyTruthyOpt cfg.sender_email && pyTruthyOpt cfg.sender_password &&
      pyTruthyOpt cfg.receiver_emails) = false := by
    rcases h with h | h | h <;> simp [pyTruthyOpt, h]
  simp [send_email_notification, hguard, noSendLog]

/-- Closed instance of run_missing_credentials: one sighting, no
credentials configured. -/
theorem run_missing_credentials_witness :
    (run cfgNoCreds (Except.ok [sightingA]) oracleOk).1.alert = true ∧
    (run cfgNoCreds (Except.ok [sightingA]) oracleOk).1.sightings_count =
      ([sightingA] : List Sighting).length ∧
    ∃ log, (run cfgNoCreds (Except.ok [sightingA]) oracleOk).2 = some log ∧
      log.attemptedConnection = false :=
  run_missing_credentials cfgNoCreds oracleOk sightingA [] (Or.inl rfl)

/-- C3: the email body is the header, the concatenation of the rendered
sighting blocks, and the footer; there are exactly min 10 N rendered
blocks, and block i renders sighting i of the input. -/
theorem format_email_body_block_count (radius_km : Nat) (sightings : List Sighting) :
    (renderedBlocks sightings).length = min 10 sightings.length ∧
    format_email_body radius_km sightings =
      emailHeader radius_km sightings.length ++ String.join (renderedBlocks sightings) ++
        emailFooter ∧
    ∀ i : Nat, (renderedBlocks sightings)[i]? =
      if i < 10 then sightings[i]?.map renderSighting else none := by
  refine ⟨by simp [renderedBlocks], rfl, ?_⟩
  intro i
  simp only [renderedBlocks, List.getElem?_map, List.getElem?_take]
  by_cases h : i < 10 <;> simp [h]

/-- C4: a fetch that raises produces exactly the run outcome of a fetch
returning the empty list, a no-alert result. -/
theorem run_fetch_error (cfg : Config) (o : SmtpOracle) (e : String) :
    run cfg (Except.error e) o = run cfg (Except.ok []) o ∧
    (run cfg (Except.error e) o).1 = ⟨false, 0, []⟩ :=
  ⟨rfl, rfl⟩

/-- C5: the sighting filter returns its input unchanged, in the same
order. -/
theorem filter_new_sightings_identity (sightings : List Sighting) :
    filter_new_sightings sightings = sightings :=
  rfl

/-- C6 (counterexample): for the timestamp "2024-01-01T00:00:00Z:00" the
trailing-Z normalization of the claim changes nothing and the string is not
parseable, so the claim requires the raw string to be displayed verbatim;
but the code replaces the interior "Z" as well, obtaining
"2024-01-01T00:00:00+00:00:00", which parses with a seconds-bearing
timezone offset, and the block displays "2024-01-01 00:00" instead of the
raw string. -/
theorem formatObsDate_counterexample :
    replaceTrailingZ "2024-01-01T00:00:00Z:00" = "2024-01-01T00:00:00Z:00" ∧
    fromisoformat "2024-01-01T00:00:00Z:00" = none ∧
    pyReplaceZ "2024-01-01T00:00:00Z:00" = "2024-01-01T00:00:00+00:00:00" ∧
    fromisoformat "2024-01-01T00:00:00+00:00:00" =
      some ⟨2024, 1, 1, 0, 0, 0, 0, some 0⟩ ∧
    formatObsDate "2024-01-01T00:00:00Z:00" = "2024-01-01 00:00" ∧
    "2024-01-01 00:00" ≠ "2024-01-01T00:00:00Z:00" := by
  decide

/-- C6 (amended): with every occurrence of "Z" replaced by "+00:00", which
is what the code does, an unparseable timestamp is displayed verbatim and a
parseable one is displayed reformatted; the displayed date is embedded in
the sighting block between its fixed surroundings. -/
theorem formatObsDate_fallback (s : Sighting) :
    (fromisoformat (pyReplaceZ (s.obsDt.getD "")) = none →
      formatObsDate (s.obsDt.getD "") = s.obsDt.getD "") ∧
    (∀ dt : PyDateTime, fromisoformat (pyReplaceZ (s.obsDt.getD "")) = some dt →
      formatObsDate (s.obsDt.getD "") = strftimeYMDHM dt) ∧
    ∃ front back : String,
      renderSighting s = front ++ formatObsDate (s.obsDt.getD "") ++ back := by
  refine ⟨?_, ?_, ?_⟩
  · intro h
    simp [formatObsDate, h]
  · intro dt h
    simp [formatObsDate, h]
  · exact ⟨blockBefore (s.comName.getD "Unknown species") (s.sciName.getD "")
      (s.locName.getD "Unknown location"),
      blockAfter (s.howMany.getD 1)
        ("https://www.google.com/maps?q=" ++ s.lat.getD "0" ++ "," ++ s.lng.getD "0"),
      rfl⟩

/-- Closed instance of formatObsDate_fallback: a malformed timestamp is
displayed verbatim, a well-formed one is displayed reformatted. -/
theorem formatObsDate_fallback_witness :
    formatObsDate "not a date" = "not a date" ∧
    formatObsDate "2024-01-02 03:04:05" = "2024-01-02 03:04" :=
  ⟨(formatObsDate_fallback ⟨none, none, none, some "not a date", none, none, none⟩).1
      (by decide),
    (formatObsDate_fallback sightingB).2.1 ⟨2024, 1, 2, 3, 4, 5, 0, none⟩ (by decide)⟩

/-- C7: past its guards the sender computes the recipient list by splitting
the configured string on commas and stripping each part, and the string
"a@x.com, b@y.com" yields exactly the two addresses. -/
theorem send_recipients_split_trim (cfg : Config) (o : SmtpOracle) (x : Sighting)
    (xs : List Sighting) (r : String) (hr : cfg.receiver_emails = some r)
    (hs : pyTruthyOpt cfg.sender_email = true) (hp : pyTruthyOpt cfg.sender_password = true)
    (hrt : pyTruthyOpt cfg.receiver_emails = true) :
    (send_email_notification cfg o (x :: xs)).recipients = (pySplitComma r).map pyStrip ∧
    parseReceivers "a@x.com, b@y.com" = ["a@x.com", "b@y.com"] := by
  constructor
  · rw [hr] at hrt
    simp only [send_email_notification, hs, hp, hr, hrt, Bool.and_self, if_true]
    cases htry : trySend o <;> simp [htry, parseReceivers, Option.getD, hrt]
  · decide

/-- Closed instance of send_recipients_split_trim at the full
configuration. -/
theorem send_recipients_split_trim_witness :
    (send_email_notification cfgFull oracleOk [sightingA]).recipients =
      (pySplitComma "a@x.com, b@y.com").map pyStrip ∧
    parseReceivers "a@x.com, b@y.com" = ["a@x.com", "b@y.com"] :=
  send_recipients_split_trim cfgFull oracleOk sightingA [] "a@x.com, b@y.com" rfl rfl rfl rfl

/-- C8: whatever the outcomes of the five SMTP calls, errors included, run
on a nonempty fetch completes and returns the alert result; the failure is
absorbed inside send_email_notification, whose log run carries unchanged. -/
theorem run_send_failure_absorbed (cfg : Config) (o : SmtpOracle) (x : Sighting)
    (xs : List Sighting) :
    (run cfg (Except.ok (x :: xs)) o).1 = ⟨true, (x :: xs).length, x :: xs⟩ ∧
    (run cfg (Except.ok (x :: xs)) o).2 = some (send_email_notification cfg o (x :: xs)) :=
  ⟨rfl, rfl⟩

/-- C9: every result of run satisfies the invariant: the alert flag holds
exactly when the count is positive, and the count equals the length of the
returned sighting list. -/
theorem run_result_invariant (cfg : Config) (fetch : Except String (List Sighting))
    (o : SmtpOracle) :
    (run cfg fetch o).1.alert = decide (0 < (run cfg fetch o).1.sightings_count) ∧
    (run cfg fetch o).1.sightings_count = (run cfg fetch o).1.sightings.length := by
  cases fetch with
  | error e => exact ⟨rfl, rfl⟩
  | ok l =>
    cases l with
    | nil => exact ⟨rfl, rfl⟩
    | cons x xs => exact ⟨by simp [run, get_notable_sightings, filter_new_sightings], rfl⟩

/-- C10: on an empty sighting list the sender returns at its second guard
even when every credential is configured: the SMTP connection is never
constructed and nothing is sent. -/
theorem send_empty_sightings (cfg : Config) (o : SmtpOracle)
    (hs : pyTruthyOpt cfg.sender_email = true) (hp : pyTruthyOpt cfg.sender_password = true)
    (hrt : pyTruthyOpt cfg.receiver_emails = true) :
    (send_email_notification cfg o []).attemptedConnection = false ∧
    (send_email_notification cfg o []).emailSent = false := by
  simp [send_email_notification, hs, hp, hrt, noSendLog]

/-- Closed instance of send_empty_sightings at the full configuration. -/
theorem send_empty_sightings_witness :
    (send_email_notification cfgFull oracleOk []).attemptedConnection = false ∧
    (send_email_notification cfgFull oracleOk []).emailSent = false :=
  send_empty_sightings cfgFull oracleOk rfl rfl rfl

end BirdNotifier
